import Mathlib

/-!
Shallow embedding of the enrollment / capacity bookkeeping slice of the
`em_course_service` repository.

The embedding models the document store as three in-memory collections
(courses, batches, enrollments).  Each service method of
`src/services/enrollmentService.ts`, `src/services/courseService.ts` and
`BatchService` (`addStudentToBatch`) is translated into a pure function on
that state.  Mongoose `findOne` becomes `List.find?`, `updateOne` with
`$inc` becomes a map over the collection that adds a delta to the matching
document, `deleteOne` removes the first matching document, and a thrown
`Error(msg)` becomes an `Except` error carrying the message's tag.
Counters are `Int` because `$inc` is applied without running validators,
so they can go below zero.  The HTTP layer's `handleError`
(`src/utils/response.ts`) is modelled by substring matching on the error
message, exactly as the TypeScript does.
-/

namespace EmCourse

/-- `EnrollmentStatus` from `src/types/course.ts`. -/
inductive EnrollmentStatus where
  | active
  | completed
  | dropped
  | suspended
  | waitlisted
deriving Repr, DecidableEq

/-- `PaymentStatus` from `src/types/course.ts` (`partialPayment` stands
for the source's `PARTIAL = 'partial'` value). -/
inductive PaymentStatus where
  | pending
  | paid
  | failed
  | refunded
  | partialPayment
deriving Repr, DecidableEq

/-- The fields of a Course document that the enrollment slice touches
(`src/models/Course.ts`).  `enrolledStudents` is an `Int`: the Mongo
`$inc` update runs without validators, so the counter can become
negative. -/
structure Course where
  id : Nat
  maxStudents : Int
  enrolledStudents : Int
deriving Repr, DecidableEq

/-- The fields of a Batch document that the enrollment slice touches
(`src/models/Batch.ts`). -/
structure Batch where
  id : Nat
  courseId : Nat
  maxStudents : Int
  enrolledStudents : Int
  allowWaitlist : Bool
deriving Repr, DecidableEq

/-- An Enrollment document (`src/models/Enrollment.ts`).  Timestamps are
abstracted to `Nat` tick values; `certificateIssuedAt` is `none` until the
certificate is issued. -/
structure Enrollment where
  id : Nat
  studentId : Nat
  courseId : Nat
  batchId : Option Nat
  status : EnrollmentStatus
  progress : Nat
  certificateIssued : Bool
  certificateIssuedAt : Option Nat
  paymentStatus : PaymentStatus
  paymentAmount : Nat
deriving Repr, DecidableEq

/-- The document store: the three collections the enrollment slice reads
and writes. -/
structure St where
  courses : List Course
  batches : List Batch
  enrollments : List Enrollment
deriving Repr, DecidableEq

/-- `CourseModel.updateOne({_id: cid}, {$inc: {enrolledStudents: d}})`:
add `d` to the counter of every course whose `_id` matches (ids are
unique, so at most one document changes). -/
def incCourse (cs : List Course) (cid : Nat) (d : Int) : List Course :=
  cs.map fun c =>
    if c.id == cid then { c with enrolledStudents := c.enrolledStudents + d } else c

/-- `BatchModel.updateOne({_id: bid}, {$inc: {enrolledStudents: d}})`. -/
def incBatch (bs : List Batch) (bid : Nat) (d : Int) : List Batch :=
  bs.map fun b =>
    if b.id == bid then { b with enrolledStudents := b.enrolledStudents + d } else b

/-- `CourseModel.findOne({_id: cid})`. -/
def findCourse (st : St) (cid : Nat) : Option Course :=
  st.courses.find? fun c => c.id == cid

/-- `BatchModel.findOne({_id: bid})`. -/
def findBatch (st : St) (bid : Nat) : Option Batch :=
  st.batches.find? fun b => b.id == bid

/-- `EnrollmentModel.findOne({_id: eid})`. -/
def findEnrollment (st : St) (eid : Nat) : Option Enrollment :=
  st.enrollments.find? fun e => e.id == eid

/-- `EnrollmentModel.findOne({studentId, courseId})`. -/
def findEnrollmentFor (st : St) (sid cid : Nat) : Option Enrollment :=
  st.enrollments.find? fun e => e.studentId == sid && e.courseId == cid

/-- The request body of `enrollStudent`
(`EnrollStudentRequest` in `src/services/enrollmentService.ts`);
name and email fields are irrelevant to the bookkeeping and omitted. -/
structure EnrollStudentRequest where
  studentId : Nat
  courseId : Nat
  batchId : Option Nat
  paymentAmount : Nat
deriving Repr, DecidableEq

/-- The distinct `throw new Error(...)` sites of
`EnrollmentService.enrollStudent`. -/
inductive EnrollError where
  | courseNotFound
  | alreadyEnrolled
  | batchNotFound
  | batchFull
deriving Repr, DecidableEq

/-- The exact message text thrown at each error site of
`EnrollmentService.enrollStudent`. -/
def EnrollError.message : EnrollError → String
  | .courseNotFound => "Course not found"
  | .alreadyEnrolled => "Student already enrolled in this course"
  | .batchNotFound => "Batch not found"
  | .batchFull => "Batch is full and waitlist is not allowed"

/-- The successful tail of `EnrollmentService.enrollStudent` (lines
44-70): build the Enrollment with `status=active`, `progress=0`,
`certificateIssued=false`, `paymentStatus` from `paymentAmount`, save it,
`$inc` the course counter, and `$inc` the batch counter when a batch was
given. -/
def insertEnrollment (st : St) (newId : Nat) (d : EnrollStudentRequest) :
    St × Enrollment :=
  let e : Enrollment :=
    { id := newId
      studentId := d.studentId
      courseId := d.courseId
      batchId := d.batchId
      status := .active
      progress := 0
      certificateIssued := false
      certificateIssuedAt := none
      paymentStatus := if d.paymentAmount > 0 then .pending else .paid
      paymentAmount := d.paymentAmount }
  ({ courses := incCourse st.courses d.courseId 1
     batches :=
       match d.batchId with
       | some bid => incBatch st.batches bid 1
       | none => st.batches
     enrollments := st.enrollments ++ [e] }, e)

/-- `EnrollmentService.enrollStudent`: course-existence check, duplicate
check on `(studentId, courseId)`, batch existence and capacity check (the
code never compares `batch.courseId` with the request's course), then the
three writes.  `newId` stands for the fresh `_id` Mongo assigns. -/
def enrollStudent (st : St) (newId : Nat) (d : EnrollStudentRequest) :
    Except EnrollError (St × Enrollment) :=
  match findCourse st d.courseId with
  | none => .error .courseNotFound
  | some _ =>
    match findEnrollmentFor st d.studentId d.courseId with
    | some _ => .error .alreadyEnrolled
    | none =>
      match d.batchId with
      | some bid =>
        match findBatch st bid with
        | none => .error .batchNotFound
        | some b =>
          if b.enrolledStudents ≥ b.maxStudents && !b.allowWaitlist then
            .error .batchFull
          else
            .ok (insertEnrollment st newId d)
      | none => .ok (insertEnrollment st newId d)

/-- `EnrollmentService.dropEnrollment`: `none` when no Enrollment has that
id (the handler turns this into a 404); otherwise flip the status to
`dropped` and `$inc` the course counter by `-1` and, when the enrollment
has a batch, the batch counter by `-1`.  No status guard: an
already-dropped enrollment is decremented again. -/
def dropEnrollment (st : St) (eid : Nat) : Option St :=
  match findEnrollment st eid with
  | none => none
  | some e =>
    some
      { courses := incCourse st.courses e.courseId (-1)
        batches :=
          match e.batchId with
          | some bid => incBatch st.batches bid (-1)
          | none => st.batches
        enrollments := st.enrollments.map fun e2 =>
          if e2.id == eid then { e2 with status := .dropped } else e2 }

/-- The distinct `throw new Error(...)` sites of
`EnrollmentService.issueCertificate`. -/
inductive CertError where
  | notFound
  | notCompleted
  | alreadyIssued
deriving Repr, DecidableEq

/-- The exact message text thrown at each error site of
`EnrollmentService.issueCertificate`. -/
def CertError.message : CertError → String
  | .notFound => "Enrollment not found"
  | .notCompleted => "Student has not completed the course"
  | .alreadyIssued => "Certificate already issued"

/-- `EnrollmentService.issueCertificate`: not-found, `progress < 100`,
and `certificateIssued` guards in that order, then set the flag and stamp
`certificateIssuedAt` with the current time `now`. -/
def issueCertificate (st : St) (eid : Nat) (now : Nat) : Except CertError St :=
  match findEnrollment st eid with
  | none => .error .notFound
  | some e =>
    if e.progress < 100 then .error .notCompleted
    else if e.certificateIssued then .error .alreadyIssued
    else
      .ok
        { st with
          enrollments := st.enrollments.map fun e2 =>
            if e2.id == eid then
              { e2 with certificateIssued := true, certificateIssuedAt := some now }
            else e2 }

/-- `CourseModel.deleteOne({_id: cid})`: remove the first matching
document; the second component is `deletedCount > 0`. -/
def eraseCourse : List Course → Nat → List Course × Bool
  | [], _ => ([], false)
  | c :: cs, cid =>
    if c.id == cid then (cs, true)
    else
      let r := eraseCourse cs cid
      (c :: r.1, r.2)

/-- `CourseService.deleteCourse`: throw when any Enrollment references the
course (`countDocuments({courseId}) > 0`, dropped enrollments included),
otherwise delete and report whether a document was removed. -/
def deleteCourse (st : St) (cid : Nat) : Except String (St × Bool) :=
  if (st.enrollments.filter fun e => e.courseId == cid).length > 0 then
    .error "Cannot delete course with active enrollments"
  else
    let r := eraseCourse st.courses cid
    .ok ({ st with courses := r.1 }, r.2)

/-- The distinct `throw new Error(...)` sites of
`BatchService.addStudentToBatch`. -/
inductive AddStudentError where
  | batchNotFound
  | alreadyEnrolled
  | batchFull
deriving Repr, DecidableEq

/-- The exact message text thrown at each error site of
`BatchService.addStudentToBatch`. -/
def AddStudentError.message : AddStudentError → String
  | .batchNotFound => "Batch not found or access denied"
  | .alreadyEnrolled => "Student already enrolled in this course"
  | .batchFull => "Batch is full"

/-- The student payload of `BatchService.addStudentToBatch` (name and
email omitted); `status` is optional and the service defaults it to
`'active'` via `studentData.status || 'active'`. -/
structure AddStudentData where
  studentId : Nat
  status : Option EnrollmentStatus
deriving Repr, DecidableEq

/-- `BatchService.addStudentToBatch`: batch lookup, duplicate check
against `(studentId, batch.courseId)`, unconditional capacity check, then
insert an Enrollment (schema defaults fill `progress`,
`certificateIssued` and `paymentStatus`; `paymentAmount` is hardcoded to
0) and `$inc` only the batch counter — the course counter is never
touched. -/
def addStudentToBatch (st : St) (newId : Nat) (batchId : Nat)
    (d : AddStudentData) : Except AddStudentError (St × Enrollment) :=
  match findBatch st batchId with
  | none => .error .batchNotFound
  | some b =>
    match findEnrollmentFor st d.studentId b.courseId with
    | some _ => .error .alreadyEnrolled
    | none =>
      if b.enrolledStudents ≥ b.maxStudents then .error .batchFull
      else
        let e : Enrollment :=
          { id := newId
            studentId := d.studentId
            courseId := b.courseId
            batchId := some batchId
            status := d.status.getD .active
            progress := 0
            certificateIssued := false
            certificateIssuedAt := none
            paymentStatus := .pending
            paymentAmount := 0 }
        .ok ({ st with
                enrollments := st.enrollments ++ [e]
                batches := incBatch st.batches batchId 1 }, e)

/-- Whether `pat` occurs as a contiguous run at the head of `s`. -/
def leadsList : List Char → List Char → Bool
  | [], _ => true
  | _ :: _, [] => false
  | p :: ps, c :: cs => p == c && leadsList ps cs

/-- Whether `pat` occurs as a contiguous run anywhere in `s`. -/
def hasSubList (pat : List Char) : List Char → Bool
  | [] => leadsList pat []
  | c :: cs => leadsList pat (c :: cs) || hasSubList pat cs

/-- JavaScript's `msg.includes(pat)`. -/
def containsSub (msg pat : String) : Bool :=
  hasSubList pat.toList msg.toList

/-- `handleError` from `src/utils/response.ts`: classify a thrown error
into an HTTP status code by substring-matching its message. -/
def handleError (msg : String) : Nat :=
  if containsSub msg "Validation error" then 400
  else if containsSub msg "not found" then 404
  else if containsSub msg "already exists" then 409
  else if containsSub msg "Unauthorized" then 401
  else if containsSub msg "Forbidden" then 403
  else 500

/-- The `enrollStudent` handler of `src/api/enrollments.ts`: 201 with the
updated store on success, otherwise the untouched store with the status
code `handleError` derives from the thrown message. -/
def enrollStudentApi (st : St) (newId : Nat) (d : EnrollStudentRequest) :
    St × Nat :=
  match enrollStudent st newId d with
  | .ok (st2, _) => (st2, 201)
  | .error err => (st, handleError err.message)

/-- The `dropEnrollment` handler of `src/api/enrollments.ts`: the service
returning `false` becomes a 404 (`'Enrollment not found'`), success a
200. -/
def dropEnrollmentApi (st : St) (eid : Nat) : St × Nat :=
  match dropEnrollment st eid with
  | none => (st, 404)
  | some st2 => (st2, 200)

/-- The `deleteCourse` handler of `src/api/courses.ts`: a thrown error
goes through `handleError`; a `false` return becomes a 404. -/
def deleteCourseApi (st : St) (cid : Nat) : St × Nat :=
  match deleteCourse st cid with
  | .error msg => (st, handleError msg)
  | .ok (st2, true) => (st2, 200)
  | .ok (st2, false) => (st2, 404)

/-- `count(Enrollment where courseId == cid and status != dropped)` — the
ground truth the spec's counter invariant compares
`Course.enrolledStudents` against. -/
def countNonDropped (st : St) (cid : Nat) : Nat :=
  (st.enrollments.filter fun e =>
    e.courseId == cid && !(e.status == EnrollmentStatus.dropped)).length

/-- One call of the enroll/drop API surface, for stating the spec's
"after any sequence of enroll/drop calls" invariant. -/
inductive Call where
  | enroll (newId : Nat) (d : EnrollStudentRequest)
  | drop (eid : Nat)
deriving Repr, DecidableEq

/-- Run one call against the store.  Both calls "complete without
crashing" for every input: a service error surfaces as an error response,
never as a crash, and leaves the store unchanged. -/
def runCall (st : St) : Call → St
  | .enroll newId d => (enrollStudentApi st newId d).1
  | .drop eid => (dropEnrollmentApi st eid).1

/-- Run a sequence of enroll/drop calls left to right. -/
def runCalls (st : St) (cs : List Call) : St :=
  cs.foldl runCall st

/-! Concrete stores and requests used as test inputs below. -/

/-- One empty course, capacity 10. -/
def stC1 : St :=
  { courses := [{ id := 1, maxStudents := 10, enrolledStudents := 0 }]
    batches := []
    enrollments := [] }

/-- Enroll student 7 in course 1, no batch, free. -/
def reqC1 : EnrollStudentRequest :=
  { studentId := 7, courseId := 1, batchId := none, paymentAmount := 0 }

/-- The enrollment row student 7 already holds in course 1. -/
def eC2 : Enrollment :=
  { id := 50, studentId := 7, courseId := 1, batchId := none
    status := .active, progress := 40, certificateIssued := false
    certificateIssuedAt := none, paymentStatus := .paid, paymentAmount := 0 }

/-- Course 1 with student 7 already enrolled. -/
def stC2 : St :=
  { courses := [{ id := 1, maxStudents := 10, enrolledStudents := 1 }]
    batches := []
    enrollments := [eC2] }

/-- A second enroll call for the same (student 7, course 1) pair. -/
def reqC2 : EnrollStudentRequest :=
  { studentId := 7, courseId := 1, batchId := none, paymentAmount := 0 }

/-- Course 1, and a batch that belongs to a different course (courseId 2),
with free capacity. -/
def stC3 : St :=
  { courses := [{ id := 1, maxStudents := 10, enrolledStudents := 0 }]
    batches := [{ id := 5, courseId := 2, maxStudents := 10,
                  enrolledStudents := 0, allowWaitlist := false }]
    enrollments := [] }

/-- Enroll into course 1 but name batch 5, which belongs to course 2. -/
def reqC3 : EnrollStudentRequest :=
  { studentId := 7, courseId := 1, batchId := some 5, paymentAmount := 0 }

/-- Course 1 with batch 2 (3 of 10 seats taken). -/
def stC4 : St :=
  { courses := [{ id := 1, maxStudents := 30, enrolledStudents := 3 }]
    batches := [{ id := 2, courseId := 1, maxStudents := 10,
                  enrolledStudents := 3, allowWaitlist := false }]
    enrollments := [] }

/-- Enroll student 7 in course 1, batch 2, paying 100. -/
def reqC4 : EnrollStudentRequest :=
  { studentId := 7, courseId := 1, batchId := some 2, paymentAmount := 100 }

/-- The enrollment `enrollStudent stC4 100 reqC4` inserts. -/
def eC4 : Enrollment :=
  { id := 100, studentId := 7, courseId := 1, batchId := some 2
    status := .active, progress := 0, certificateIssued := false
    certificateIssuedAt := none, paymentStatus := .pending, paymentAmount := 100 }

/-- The store after `enrollStudent stC4 100 reqC4`. -/
def stC4r : St :=
  { courses := [{ id := 1, maxStudents := 30, enrolledStudents := 4 }]
    batches := [{ id := 2, courseId := 1, maxStudents := 10,
                  enrolledStudents := 4, allowWaitlist := false }]
    enrollments := [eC4] }

/-- Course 1 with batch 2 exactly full (2 of 2) and no waitlist. -/
def stC5f : St :=
  { courses := [{ id := 1, maxStudents := 30, enrolledStudents := 2 }]
    batches := [{ id := 2, courseId := 1, maxStudents := 2,
                  enrolledStudents := 2, allowWaitlist := false }]
    enrollments := [] }

/-- Course 1 with batch 2 exactly full (2 of 2) and the waitlist flag set. -/
def stC5t : St :=
  { courses := [{ id := 1, maxStudents := 30, enrolledStudents := 2 }]
    batches := [{ id := 2, courseId := 1, maxStudents := 2,
                  enrolledStudents := 2, allowWaitlist := true }]
    enrollments := [] }

/-- Enroll student 7 in course 1, batch 2, free. -/
def reqC5 : EnrollStudentRequest :=
  { studentId := 7, courseId := 1, batchId := some 2, paymentAmount := 0 }

/-- An active enrollment (id 50) of student 7 in course 1, batch 2. -/
def eC6 : Enrollment :=
  { id := 50, studentId := 7, courseId := 1, batchId := some 2
    status := .active, progress := 40, certificateIssued := false
    certificateIssuedAt := none, paymentStatus := .paid, paymentAmount := 0 }

/-- Store with consistent counters: one active enrollment in course 1 and
batch 2. -/
def stC6 : St :=
  { courses := [{ id := 1, maxStudents := 30, enrolledStudents := 1 }]
    batches := [{ id := 2, courseId := 1, maxStudents := 10,
                  enrolledStudents := 1, allowWaitlist := false }]
    enrollments := [eC6] }

/-- The store after `dropEnrollment stC6 50`. -/
def stC6r : St :=
  { courses := [{ id := 1, maxStudents := 30, enrolledStudents := 0 }]
    batches := [{ id := 2, courseId := 1, maxStudents := 10,
                  enrolledStudents := 0, allowWaitlist := false }]
    enrollments := [{ eC6 with status := .dropped }] }

/-- An enrollment (id 50) that has already been dropped. -/
def eC7 : Enrollment :=
  { id := 50, studentId := 7, courseId := 1, batchId := some 2
    status := .dropped, progress := 40, certificateIssued := false
    certificateIssuedAt := none, paymentStatus := .paid, paymentAmount := 0 }

/-- Store whose counters already reflect the drop of enrollment 50. -/
def stC7 : St :=
  { courses := [{ id := 1, maxStudents := 30, enrolledStudents := 0 }]
    batches := [{ id := 2, courseId := 1, maxStudents := 10,
                  enrolledStudents := 0, allowWaitlist := false }]
    enrollments := [eC7] }

/-- The store after dropping the already-dropped enrollment 50 again: both
counters go to -1. -/
def stC7r : St :=
  { courses := [{ id := 1, maxStudents := 30, enrolledStudents := -1 }]
    batches := [{ id := 2, courseId := 1, maxStudents := 10,
                  enrolledStudents := -1, allowWaitlist := false }]
    enrollments := [eC7] }

/-- An enrollment (id 60) at progress 100 with no certificate yet. -/
def eC8 : Enrollment :=
  { id := 60, studentId := 7, courseId := 1, batchId := none
    status := .active, progress := 100, certificateIssued := false
    certificateIssuedAt := none, paymentStatus := .paid, paymentAmount := 0 }

/-- Store holding only the completed enrollment 60. -/
def stC8 : St :=
  { courses := [], batches := [], enrollments := [eC8] }

/-- An active enrollment referencing course 3. -/
def eC9 : Enrollment :=
  { id := 70, studentId := 7, courseId := 3, batchId := none
    status := .active, progress := 0, certificateIssued := false
    certificateIssuedAt := none, paymentStatus := .paid, paymentAmount := 0 }

/-- Course 3 together with an enrollment that references it. -/
def stC9 : St :=
  { courses := [{ id := 3, maxStudents := 10, enrolledStudents := 1 }]
    batches := []
    enrollments := [eC9] }

/-- Course 1 (counter 5) with batch 2 (3 of 10 seats taken). -/
def stC10 : St :=
  { courses := [{ id := 1, maxStudents := 30, enrolledStudents := 5 }]
    batches := [{ id := 2, courseId := 1, maxStudents := 10,
                  enrolledStudents := 3, allowWaitlist := false }]
    enrollments := [] }

/-- Add student 8 to batch 2 with no explicit status. -/
def dC10 : AddStudentData :=
  { studentId := 8, status := none }

/-- The enrollment `addStudentToBatch stC10 100 2 dC10` inserts. -/
def eC10 : Enrollment :=
  { id := 100, studentId := 8, courseId := 1, batchId := some 2
    status := .active, progress := 0, certificateIssued := false
    certificateIssuedAt := none, paymentStatus := .pending, paymentAmount := 0 }

/-- The store after `addStudentToBatch stC10 100 2 dC10`: the course
counter is still 5. -/
def stC10r : St :=
  { courses := [{ id := 1, maxStudents := 30, enrolledStudents := 5 }]
    batches := [{ id := 2, courseId := 1, maxStudents := 10,
                  enrolledStudents := 4, allowWaitlist := false }]
    enrollments := [eC10] }

/-! General lemmas about the store operations. -/

/-- Looking a course up after a `$inc` on its id sees the counter moved by
`d`; other ids are untouched by `incCourse`, so the lookup result is just
the old one with the counter shifted. -/
theorem find?_incCourse (cs : List Course) (cid : Nat) (d : Int) :
    (incCourse cs cid d).find? (fun c => c.id == cid) =
      (cs.find? fun c => c.id == cid).map
        (fun c => { c with enrolledStudents := c.enrolledStudents + d }) := by
  induction cs with
  | nil => rfl
  | cons a l ih =>
    simp only [incCourse, List.map_cons] at *
    by_cases h : (a.id == cid) = true
    · have h2 : (({ a with enrolledStudents := a.enrolledStudents + d } : Course).id == cid)
          = true := h
      rw [if_pos h]
      simp only [List.find?, h, h2]
      rfl
    · have h3 : (a.id == cid) = false := Bool.not_eq_true _ ▸ h
      rw [if_neg h]
      simp only [List.find?, h3, ih]

/-- The `incBatch` analogue of `find?_incCourse`. -/
theorem find?_incBatch (bs : List Batch) (bid : Nat) (d : Int) :
    (incBatch bs bid d).find? (fun b => b.id == bid) =
      (bs.find? fun b => b.id == bid).map
        (fun b => { b with enrolledStudents := b.enrolledStudents + d }) := by
  induction bs with
  | nil => rfl
  | cons a l ih =>
    simp only [incBatch, List.map_cons] at *
    by_cases h : (a.id == bid) = true
    · have h2 : (({ a with enrolledStudents := a.enrolledStudents + d } : Batch).id == bid)
          = true := h
      rw [if_pos h]
      simp only [List.find?, h, h2]
      rfl
    · have h3 : (a.id == bid) = false := Bool.not_eq_true _ ▸ h
      rw [if_neg h]
      simp only [List.find?, h3, ih]

/-- Looking an enrollment up after an id-targeted, id-preserving update
(`updateOne({_id: eid}, ...)`) sees the update applied to the old
result. -/
theorem find?_setById (l : List Enrollment) (eid : Nat) (f : Enrollment → Enrollment)
    (hf : ∀ e, (f e).id = e.id) :
    (l.map fun e => if e.id == eid then f e else e).find? (fun e => e.id == eid) =
      (l.find? fun e => e.id == eid).map (fun e => if e.id == eid then f e else e) := by
  induction l with
  | nil => rfl
  | cons a l ih =>
    simp only [List.map_cons]
    by_cases h : (a.id == eid) = true
    · rw [if_pos h]
      have h2 : ((f a).id == eid) = true := by
        simp only [beq_iff_eq] at h ⊢
        rw [hf a]; exact h
      simp only [beq_iff_eq] at h
      simp [List.find?, h, h2]
    · have h3 : (a.id == eid) = false := Bool.not_eq_true _ ▸ h
      have h4 : (if (a.id == eid) = true then f a else a) = a := if_neg h
      rw [h4]
      simp only [List.find?, h3, ih]

/-- A successful `enrollStudent` call is exactly the insert-and-increment
tail `insertEnrollment`. -/
theorem enrollStudent_ok (st : St) (newId : Nat) (d : EnrollStudentRequest)
    (st2 : St) (e : Enrollment) (h : enrollStudent st newId d = .ok (st2, e)) :
    (st2, e) = insertEnrollment st newId d := by
  unfold enrollStudent at h
  cases hc : findCourse st d.courseId with
  | none => simp [hc] at h
  | some c =>
    simp only [hc] at h
    cases hd : findEnrollmentFor st d.studentId d.courseId with
    | some e0 => simp [hd] at h
    | none =>
      simp only [hd] at h
      cases hb : d.batchId with
      | none => simp only [hb] at h; simpa using h.symm
      | some bid =>
        simp only [hb] at h
        cases hfb : findBatch st bid with
        | none => simp [hfb] at h
        | some b =>
          simp only [hfb] at h
          by_cases hful : (b.enrolledStudents ≥ b.maxStudents && !b.allowWaitlist) = true
          · rw [if_pos hful] at h; simp at h
          · rw [if_neg hful] at h; simpa using h.symm

/-! Claim theorems. -/

/-- C1. The spec's counter invariant — `Course.enrolledStudents` equals
the number of non-dropped Enrollments of the course after every crash-free
enroll/drop sequence — fails on the code: enroll student 7 in course 1,
drop the enrollment, drop it again.  Every call completes (the second drop
reports success), yet the counter ends at -1 while 0 non-dropped
enrollments remain, because `dropEnrollment` decrements without checking
the current status. -/
theorem double_drop_counter_drift :
    (findCourse (runCalls stC1 [.enroll 100 reqC1, .drop 100, .drop 100]) 1).map
        Course.enrolledStudents = some (-1) ∧
    countNonDropped (runCalls stC1 [.enroll 100 reqC1, .drop 100, .drop 100]) 1 = 0 ∧
    ((-1 : Int) ≠ ((0 : Nat) : Int)) := by decide

/-- C2 (amended). When the course exists and an Enrollment for
`(studentId, courseId)` is already present, a second enroll call fails at
the duplicate check (`'Student already enrolled in this course'`) and the
store — in particular the first Enrollment — is unchanged; the HTTP layer
maps that message to 500, because `handleError` recognizes `'already
exists'` but this message says `'already enrolled'`. -/
theorem duplicate_enroll_rejected (st : St) (newId : Nat) (d : EnrollStudentRequest)
    (c : Course) (e0 : Enrollment)
    (hc : findCourse st d.courseId = some c)
    (hd : findEnrollmentFor st d.studentId d.courseId = some e0) :
    enrollStudent st newId d = .error .alreadyEnrolled ∧
    handleError (EnrollError.alreadyEnrolled).message = 500 ∧
    enrollStudentApi st newId d = (st, 500) := by
  have h1 : enrollStudent st newId d = .error .alreadyEnrolled := by
    unfold enrollStudent
    simp only [hc, hd]
  have h2 : handleError (EnrollError.alreadyEnrolled).message = 500 := by decide
  refine ⟨h1, h2, ?_⟩
  unfold enrollStudentApi
  simp only [h1, h2]

/-- C2 witness: student 7 is already enrolled in course 1 in `stC2`; the
second enroll call leaves the store unchanged and yields HTTP 500. -/
theorem duplicate_enroll_rejected_witness :
    enrollStudent stC2 101 reqC2 = .error .alreadyEnrolled ∧
    handleError (EnrollError.alreadyEnrolled).message = 500 ∧
    enrollStudentApi stC2 101 reqC2 = (stC2, 500) :=
  duplicate_enroll_rejected stC2 101 reqC2
    { id := 1, maxStudents := 10, enrolledStudents := 1 } eC2 (by decide) (by decide)

/-- C2 counterexample: the claim says the second enroll call fails with
HTTP 409 Conflict; on `stC2` (student 7 already enrolled in course 1) the
handler actually answers 500. -/
theorem duplicate_enroll_not_conflict :
    findEnrollmentFor stC2 7 1 = some eC2 ∧
    (enrollStudentApi stC2 101 reqC2).2 = 500 ∧ ((500 : Nat) ≠ 409) := by decide

/-- C3 (amended). `enrollStudent` checks its preconditions in exactly the
claimed order — course existence, duplicate enrollment, batch — except
that step (c) only checks that the Batch exists: whether it belongs to the
requested Course is never compared.  Each error fires iff every earlier
check passed and its own condition holds. -/
theorem enroll_error_characterization (st : St) (newId : Nat) (d : EnrollStudentRequest) :
    (enrollStudent st newId d = .error .courseNotFound ↔ findCourse st d.courseId = none) ∧
    (enrollStudent st newId d = .error .alreadyEnrolled ↔
      findCourse st d.courseId ≠ none ∧
      findEnrollmentFor st d.studentId d.courseId ≠ none) ∧
    (enrollStudent st newId d = .error .batchNotFound ↔
      findCourse st d.courseId ≠ none ∧
      findEnrollmentFor st d.studentId d.courseId = none ∧
      ∃ bid, d.batchId = some bid ∧ findBatch st bid = none) ∧
    (enrollStudent st newId d = .error .batchFull ↔
      findCourse st d.courseId ≠ none ∧
      findEnrollmentFor st d.studentId d.courseId = none ∧
      ∃ bid b, d.batchId = some bid ∧ findBatch st bid = some b ∧
        b.enrolledStudents ≥ b.maxStudents ∧ b.allowWaitlist = false) := by
  unfold enrollStudent
  cases hc : findCourse st d.courseId with
  | none => simp [hc]
  | some c =>
    cases hd : findEnrollmentFor st d.studentId d.courseId with
    | some e0 => simp [hc, hd]
    | none =>
      cases hb : d.batchId with
      | none => simp [hc, hd, hb]
      | some bid =>
        cases hfb : findBatch st bid with
        | none => simp [hc, hd, hb, hfb]
        | some b =>
          by_cases hge : b.enrolledStudents ≥ b.maxStudents
          · cases hw : b.allowWaitlist with
            | true => simp [hc, hd, hb, hfb, hge, hw]
            | false => simp [hc, hd, hb, hfb, hge, hw]
          · simp [hc, hd, hb, hfb, hge]

/-- C3 counterexample: in `stC3` batch 5 belongs to course 2, yet
enrolling into course 1 with `batchId = 5` succeeds — the claimed
"Batch belongs to that Course, else NotFound" check does not exist. -/
theorem enroll_foreign_batch_accepted :
    findBatch stC3 5 = some { id := 5, courseId := 2, maxStudents := 10,
                              enrolledStudents := 0, allowWaitlist := false } ∧
    reqC3.courseId = 1 ∧ ((2 : Nat) ≠ 1) ∧
    enrollStudent stC3 100 reqC3 = .ok (insertEnrollment stC3 100 reqC3) :=
  ⟨by decide, by decide, by decide, rfl⟩

/-- C4. Every successful enroll call appends exactly one Enrollment — with
`status = active`, `progress = 0` and `paymentStatus` decided by
`paymentAmount` — increments the matching course counter by 1, and
increments the batch counter by 1 exactly when a batch was named. -/
theorem enroll_success_effects (st : St) (newId : Nat) (d : EnrollStudentRequest)
    (st2 : St) (e : Enrollment) (h : enrollStudent st newId d = .ok (st2, e)) :
    e.status = .active ∧ e.progress = 0 ∧
    e.paymentStatus =
      (if d.paymentAmount > 0 then PaymentStatus.pending else PaymentStatus.paid) ∧
    st2.enrollments = st.enrollments ++ [e] ∧
    st2.courses = incCourse st.courses d.courseId 1 ∧
    findCourse st2 d.courseId =
      (findCourse st d.courseId).map
        (fun c => { c with enrolledStudents := c.enrolledStudents + 1 }) ∧
    (∀ bid, d.batchId = some bid →
      st2.batches = incBatch st.batches bid 1 ∧
      findBatch st2 bid =
        (findBatch st bid).map
          (fun b => { b with enrolledStudents := b.enrolledStudents + 1 })) ∧
    (d.batchId = none → st2.batches = st.batches) := by
  have hok := enrollStudent_ok st newId d st2 e h
  unfold insertEnrollment at hok
  have hst : st2 = _ := congrArg Prod.fst hok
  have he : e = _ := congrArg Prod.snd hok
  subst hst
  subst he
  refine ⟨rfl, rfl, rfl, rfl, rfl, ?_, ?_, ?_⟩
  · simp only [findCourse]
    exact find?_incCourse st.courses d.courseId 1
  · intro bid hbid
    constructor
    · simp only [hbid]
    · simp only [findBatch, hbid]
      exact find?_incBatch st.batches bid 1
  · intro hnone
    simp only [hnone]

/-- C4 witness: enrolling student 7 in course 1 / batch 2 of `stC4` with
payment 100 produces exactly `stC4r` and the pending-payment active
enrollment `eC4`. -/
theorem enroll_success_effects_witness :
    eC4.status = EnrollmentStatus.active ∧ eC4.progress = 0 ∧
    stC4r.enrollments = stC4.enrollments ++ [eC4] ∧
    stC4r.courses = incCourse stC4.courses reqC4.courseId 1 :=
  ⟨(enroll_success_effects stC4 100 reqC4 stC4r eC4 rfl).1,
   (enroll_success_effects stC4 100 reqC4 stC4r eC4 rfl).2.1,
   (enroll_success_effects stC4 100 reqC4 stC4r eC4 rfl).2.2.2.1,
   (enroll_success_effects stC4 100 reqC4 stC4r eC4 rfl).2.2.2.2.1⟩

/-- C5. With the course present, no duplicate enrollment, and the named
batch exactly full (`enrolledStudents = maxStudents`): when
`allowWaitlist` is false the call fails at the capacity check and the
handler answers with the store untouched, and when `allowWaitlist` is
true the same call succeeds. -/
theorem full_batch_capacity_gate (st : St) (newId : Nat) (d : EnrollStudentRequest)
    (c : Course) (bid : Nat) (b : Batch)
    (hc : findCourse st d.courseId = some c)
    (hd : findEnrollmentFor st d.studentId d.courseId = none)
    (hbid : d.batchId = some bid)
    (hb : findBatch st bid = some b)
    (hcap : b.enrolledStudents = b.maxStudents) :
    (b.allowWaitlist = false →
      enrollStudent st newId d = .error .batchFull ∧
      enrollStudentApi st newId d = (st, 500)) ∧
    (b.allowWaitlist = true →
      enrollStudent st newId d = .ok (insertEnrollment st newId d)) := by
  constructor
  · intro hw
    have h1 : enrollStudent st newId d = .error .batchFull := by
      unfold enrollStudent
      simp [hc, hd, hbid, hb, hw, hcap]
    have h2 : handleError (EnrollError.batchFull).message = 500 := by decide
    refine ⟨h1, ?_⟩
    unfold enrollStudentApi
    simp only [h1, h2]
  · intro hw
    unfold enrollStudent
    simp [hc, hd, hbid, hb, hw]

/-- C5 witness: batch 2 is exactly full (2 of 2) in both stores; the
enroll call fails and leaves `stC5f` unchanged when the waitlist is off,
and succeeds on `stC5t` where the waitlist flag is on. -/
theorem full_batch_capacity_gate_witness :
    enrollStudent stC5f 100 reqC5 = .error .batchFull ∧
    enrollStudentApi stC5f 100 reqC5 = (stC5f, 500) ∧
    enrollStudent stC5t 100 reqC5 = .ok (insertEnrollment stC5t 100 reqC5) :=
  ⟨((full_batch_capacity_gate stC5f 100 reqC5
      { id := 1, maxStudents := 30, enrolledStudents := 2 } 2
      { id := 2, courseId := 1, maxStudents := 2, enrolledStudents := 2,
        allowWaitlist := false }
      (by decide) (by decide) (by decide) (by decide) (by decide)).1 (by decide)).1,
   ((full_batch_capacity_gate stC5f 100 reqC5
      { id := 1, maxStudents := 30, enrolledStudents := 2 } 2
      { id := 2, courseId := 1, maxStudents := 2, enrolledStudents := 2,
        allowWaitlist := false }
      (by decide) (by decide) (by decide) (by decide) (by decide)).1 (by decide)).2,
   (full_batch_capacity_gate stC5t 100 reqC5
      { id := 1, maxStudents := 30, enrolledStudents := 2 } 2
      { id := 2, courseId := 1, maxStudents := 2, enrolledStudents := 2,
        allowWaitlist := true }
      (by decide) (by decide) (by decide) (by decide) (by decide)).2 (by decide)⟩

/-- C6. `dropEnrollment` answers 404 (NotFound) when no Enrollment has
the id, and on success flips the enrollment's status to `dropped`,
decrements the matching course counter by 1, and decrements the batch
counter by 1 exactly when the enrollment carries a `batchId`. -/
theorem drop_contract (st : St) (eid : Nat) :
    (findEnrollment st eid = none →
      dropEnrollment st eid = none ∧ dropEnrollmentApi st eid = (st, 404)) ∧
    (∀ e, findEnrollment st eid = some e →
      ∃ st2, dropEnrollment st eid = some st2 ∧
        st2.enrollments = st.enrollments.map (fun e2 =>
          if e2.id == eid then { e2 with status := EnrollmentStatus.dropped } else e2) ∧
        st2.courses = incCourse st.courses e.courseId (-1) ∧
        findCourse st2 e.courseId =
          (findCourse st e.courseId).map
            (fun c => { c with enrolledStudents := c.enrolledStudents - 1 }) ∧
        (∀ bid, e.batchId = some bid →
          st2.batches = incBatch st.batches bid (-1) ∧
          findBatch st2 bid =
            (findBatch st bid).map
              (fun b => { b with enrolledStudents := b.enrolledStudents - 1 })) ∧
        (e.batchId = none → st2.batches = st.batches)) := by
  constructor
  · intro h
    unfold dropEnrollment dropEnrollmentApi
    simp [dropEnrollment, h]
  · intro e he
    refine ⟨{ courses := incCourse st.courses e.courseId (-1)
              batches := match e.batchId with
                         | some bid => incBatch st.batches bid (-1)
                         | none => st.batches
              enrollments := st.enrollments.map fun e2 =>
                if e2.id == eid then { e2 with status := EnrollmentStatus.dropped } else e2 },
            ?_, rfl, rfl, ?_, ?_, ?_⟩
    · unfold dropEnrollment
      simp only [he]
    · simp only [findCourse]
      have := find?_incCourse st.courses e.courseId (-1)
      simpa [sub_eq_add_neg] using this
    · intro bid hbid
      constructor
      · simp only [hbid]
      · simp only [findBatch, hbid]
        have := find?_incBatch st.batches bid (-1)
        simpa [sub_eq_add_neg] using this
    · intro hnone
      simp only [hnone]

/-- C6 witness: dropping the missing enrollment 99 of `stC6` gives a 404
with the store untouched; dropping the active enrollment 50 succeeds and
decrements the course-1 counter. -/
theorem drop_contract_witness :
    dropEnrollmentApi stC6 99 = (stC6, 404) ∧
    (∃ st2, dropEnrollment stC6 50 = some st2 ∧
      st2.courses = incCourse stC6.courses eC6.courseId (-1) ∧
      st2.enrollments = stC6.enrollments.map (fun e2 =>
        if e2.id == 50 then { e2 with status := EnrollmentStatus.dropped } else e2)) := by
  constructor
  · exact ((drop_contract stC6 99).1 (by decide)).2
  · obtain ⟨st2, h1, h2, h3, -⟩ := (drop_contract stC6 50).2 eC6 (by decide)
    exact ⟨st2, h1, h3, h2⟩

/-- C7. `dropEnrollment` never looks at the current status: when the
Enrollment is already `dropped`, the call still returns success and
decrements the course counter (and the batch counter when a `batchId` is
present) a second time. -/
theorem drop_already_dropped_decrements_again (st : St) (eid : Nat) (e : Enrollment)
    (he : findEnrollment st eid = some e) (_hs : e.status = .dropped) :
    ∃ st2, dropEnrollment st eid = some st2 ∧
      st2.courses = incCourse st.courses e.courseId (-1) ∧
      findCourse st2 e.courseId =
        (findCourse st e.courseId).map
          (fun c => { c with enrolledStudents := c.enrolledStudents - 1 }) ∧
      (∀ bid, e.batchId = some bid →
        st2.batches = incBatch st.batches bid (-1) ∧
        findBatch st2 bid =
          (findBatch st bid).map
            (fun b => { b with enrolledStudents := b.enrolledStudents - 1 })) := by
  refine ⟨{ courses := incCourse st.courses e.courseId (-1)
            batches := match e.batchId with
                       | some bid => incBatch st.batches bid (-1)
                       | none => st.batches
            enrollments := st.enrollments.map fun e2 =>
              if e2.id == eid then { e2 with status := EnrollmentStatus.dropped } else e2 },
          ?_, rfl, ?_, ?_⟩
  · unfold dropEnrollment
    simp only [he]
  · simp only [findCourse]
    have := find?_incCourse st.courses e.courseId (-1)
    simpa [sub_eq_add_neg] using this
  · intro bid hbid
    constructor
    · simp only [hbid]
    · simp only [findBatch, hbid]
      have := find?_incBatch st.batches bid (-1)
      simpa [sub_eq_add_neg] using this

/-- C7 witness: enrollment 50 of `stC7` is already dropped and the
counters already read 0; a second drop still succeeds and pushes the
course counter to -1. -/
theorem drop_already_dropped_witness :
    incCourse stC7.courses 1 (-1) =
      [{ id := 1, maxStudents := 30, enrolledStudents := -1 }] ∧
    (∃ st2, dropEnrollment stC7 50 = some st2 ∧
      st2.courses = incCourse stC7.courses eC7.courseId (-1)) := by
  constructor
  · decide
  · obtain ⟨st2, h1, h2, -⟩ :=
      drop_already_dropped_decrements_again stC7 50 eC7 (by decide) (by decide)
    exact ⟨st2, h1, h2⟩

/-- C8. With the Enrollment present: `issueCertificate` fails with the
InvalidState error when `progress < 100`; fails with the Conflict error
when the certificate is already issued; and otherwise succeeds exactly
once — the success sets `certificateIssued` and stamps
`certificateIssuedAt`, and any later call on the updated store fails with
the Conflict error, so the flag only ever goes from false to true. -/
theorem certificate_issued_once (st : St) (eid now later : Nat) (e : Enrollment)
    (h : findEnrollment st eid = some e) :
    (e.progress < 100 → issueCertificate st eid now = .error .notCompleted) ∧
    (100 ≤ e.progress → e.certificateIssued = true →
      issueCertificate st eid now = .error .alreadyIssued) ∧
    (100 ≤ e.progress → e.certificateIssued = false →
      ∃ st2, issueCertificate st eid now = .ok st2 ∧
        findEnrollment st2 eid =
          some { e with certificateIssued := true, certificateIssuedAt := some now } ∧
        issueCertificate st2 eid later = .error .alreadyIssued) := by
  have hid : (e.id == eid) = true := by
    have := List.find?_some h
    simpa using this
  refine ⟨?_, ?_, ?_⟩
  · intro hp
    unfold issueCertificate
    simp [h, hp]
  · intro hp hi
    unfold issueCertificate
    simp [h, Nat.not_lt.mpr hp, hi]
  · intro hp hi
    have hfind2 : findEnrollment
        { st with enrollments := st.enrollments.map fun e2 =>
            if e2.id == eid then
              { e2 with certificateIssued := true, certificateIssuedAt := some now }
            else e2 } eid =
        some { e with certificateIssued := true, certificateIssuedAt := some now } := by
      unfold findEnrollment
      have := find?_setById st.enrollments eid
        (fun e2 => { e2 with certificateIssued := true, certificateIssuedAt := some now })
        (fun e2 => rfl)
      unfold findEnrollment at h
      have hpe : e.id = eid := by simpa using hid
      simp only [this, h]
      simp [hpe]
    refine ⟨_, ?_, hfind2, ?_⟩
    · unfold issueCertificate
      simp [h, Nat.not_lt.mpr hp, hi]
    · unfold issueCertificate
      rw [hfind2]
      simp [Nat.not_lt.mpr hp]

/-- C8 witness: enrollment 60 of `stC8` is at progress 100 with no
certificate; issuing succeeds, the certificate is stamped at tick 2026,
and issuing again on the updated store fails with the Conflict error. -/
theorem certificate_issued_once_witness :
    ∃ st2, issueCertificate stC8 60 2026 = .ok st2 ∧
      findEnrollment st2 60 =
        some { eC8 with certificateIssued := true, certificateIssuedAt := some 2026 } ∧
      issueCertificate st2 60 2027 = .error .alreadyIssued :=
  (certificate_issued_once stC8 60 2026 2027 eC8 (by decide)).2.2 (by decide) (by decide)

/-- C9 (amended). When any Enrollment references a course,
`deleteCourse` fails with `'Cannot delete course with active
enrollments'` and the Course is not deleted, but the HTTP handler maps
that message to 500 — not 409, since `handleError` only matches
`'already exists'` for Conflict. -/
theorem delete_course_with_enrollments_blocked (st : St) (cid : Nat) (e : Enrollment)
    (he : e ∈ st.enrollments) (hcid : e.courseId = cid) :
    deleteCourse st cid = .error "Cannot delete course with active enrollments" ∧
    deleteCourseApi st cid = (st, 500) := by
  have hmem : e ∈ st.enrollments.filter (fun e2 => e2.courseId == cid) := by
    refine List.mem_filter.mpr ⟨he, ?_⟩
    simp [hcid]
  have hpos : 0 < (st.enrollments.filter fun e2 => e2.courseId == cid).length :=
    List.length_pos.mpr (List.ne_nil_of_mem hmem)
  have h1 : deleteCourse st cid = .error "Cannot delete course with active enrollments" := by
    unfold deleteCourse
    rw [if_pos hpos]
  have h2 : handleError "Cannot delete course with active enrollments" = 500 := by decide
  refine ⟨h1, ?_⟩
  unfold deleteCourseApi
  simp only [h1, h2]

/-- C9 witness: enrollment 70 references course 3, so deleting course 3
from `stC9` fails and the handler answers 500 with the store
untouched. -/
theorem delete_course_blocked_witness :
    deleteCourse stC9 3 = .error "Cannot delete course with active enrollments" ∧
    deleteCourseApi stC9 3 = (stC9, 500) :=
  delete_course_with_enrollments_blocked stC9 3 eC9 (by decide) (by decide)

/-- C9 counterexample: the claim says the delete fails with HTTP 409;
on `stC9` the response status is actually 500 (the course does survive). -/
theorem delete_course_not_conflict :
    eC9 ∈ stC9.enrollments ∧ eC9.courseId = 3 ∧
    (deleteCourseApi stC9 3).2 = 500 ∧ ((500 : Nat) ≠ 409) ∧
    (deleteCourseApi stC9 3).1 = stC9 := by decide

/-- A successful `addStudentToBatch` call is exactly: insert the
defaulted Enrollment for the batch's course and `$inc` the batch
counter. -/
theorem addStudentToBatch_ok (st : St) (newId batchId : Nat) (d : AddStudentData)
    (st2 : St) (e : Enrollment) (h : addStudentToBatch st newId batchId d = .ok (st2, e)) :
    ∃ b, findBatch st batchId = some b ∧
      e = { id := newId, studentId := d.studentId, courseId := b.courseId,
            batchId := some batchId, status := d.status.getD .active,
            progress := 0, certificateIssued := false, certificateIssuedAt := none,
            paymentStatus := .pending, paymentAmount := 0 } ∧
      st2 = { st with enrollments := st.enrollments ++ [e],
                      batches := incBatch st.batches batchId 1 } := by
  unfold addStudentToBatch at h
  cases hb : findBatch st batchId with
  | none => simp [hb] at h
  | some b =>
    simp only [hb] at h
    cases hd : findEnrollmentFor st d.studentId b.courseId with
    | some e0 => simp [hd] at h
    | none =>
      simp only [hd] at h
      by_cases hful : b.enrolledStudents ≥ b.maxStudents
      · rw [if_pos hful] at h; simp at h
      · rw [if_neg hful] at h
        simp only [Except.ok.injEq, Prod.mk.injEq] at h
        obtain ⟨hst, he⟩ := h
        subst he
        subst hst
        exact ⟨b, rfl, rfl, rfl⟩

/-- C10. A successful `addStudentToBatch` leaves the Course collection —
in particular `Course.enrolledStudents` — completely unchanged, while it
appends one Enrollment for the batch's own course and increments only
`Batch.enrolledStudents`. -/
theorem addStudent_only_batch_counter (st : St) (newId batchId : Nat) (d : AddStudentData)
    (st2 : St) (e : Enrollment) (h : addStudentToBatch st newId batchId d = .ok (st2, e)) :
    st2.courses = st.courses ∧
    st2.batches = incBatch st.batches batchId 1 ∧
    findBatch st2 batchId =
      (findBatch st batchId).map
        (fun b => { b with enrolledStudents := b.enrolledStudents + 1 }) ∧
    st2.enrollments = st.enrollments ++ [e] ∧
    e.status = d.status.getD .active ∧
    (∃ b, findBatch st batchId = some b ∧ e.courseId = b.courseId) ∧
    e.batchId = some batchId := by
  obtain ⟨b, hb, he, hst⟩ := addStudentToBatch_ok st newId batchId d st2 e h
  subst hst
  refine ⟨rfl, rfl, ?_, rfl, ?_, ⟨b, hb, ?_⟩, ?_⟩
  · simp only [findBatch]
    exact find?_incBatch st.batches batchId 1
  · rw [he]
  · rw [he]
  · rw [he]

/-- C10 witness: adding student 8 to batch 2 of `stC10` leaves the
course counter at 5 while the batch counter moves to 4. -/
theorem addStudent_only_batch_counter_witness :
    stC10r.courses = stC10.courses ∧
    stC10r.batches = incBatch stC10.batches 2 1 ∧
    eC10.status = EnrollmentStatus.active ∧
    stC10r.enrollments = stC10.enrollments ++ [eC10] :=
  ⟨(addStudent_only_batch_counter stC10 100 2 dC10 stC10r eC10 rfl).1,
   (addStudent_only_batch_counter stC10 100 2 dC10 stC10r eC10 rfl).2.1,
   (addStudent_only_batch_counter stC10 100 2 dC10 stC10r eC10 rfl).2.2.2.2.1,
   (addStudent_only_batch_counter stC10 100 2 dC10 stC10r eC10 rfl).2.2.2.1⟩

end EmCourse
